import Mathlib

/-!
Shallow embedding of `src/main.cpp` (Vulkan bootstrap tutorial application)
and verification of its specified properties.

The Vulkan / GLFW subsystems are modelled as environments: the data they
would report (available layers, enumerated devices, queue-family tables,
result codes of creation calls) are inputs, and the subsystem calls the
program issues are recorded as explicit events so that claims about
"which calls happen" and "in which order" can be stated.
-/

namespace VulkanTut

/-- Vulkan success result code (`VK_SUCCESS = 0`). -/
def VK_SUCCESS : Int := 0

/-- `VK_QUEUE_GRAPHICS_BIT = 0x00000001`. -/
def VK_QUEUE_GRAPHICS_BIT : Nat := 1

/-- `VK_INSTANCE_CREATE_ENUMERATE_PORTABILITY_BIT_KHR = 0x00000001`. -/
def VK_INSTANCE_CREATE_ENUMERATE_PORTABILITY_BIT_KHR : Nat := 1

/-- `VK_KHR_SWAPCHAIN_EXTENSION_NAME`. -/
def VK_KHR_SWAPCHAIN_EXTENSION_NAME : String := "VK_KHR_swapchain"

/-- The requested diagnostic layers (`validationLayers`, main.cpp lines 14-16). -/
def validationLayers : List String := ["VK_LAYER_KHRONOS_validation"]

/-- One entry of the queue-family table a physical device reports
(`VkQueueFamilyProperties`; only `queueFlags` is inspected by the source). -/
structure VkQueueFamilyProperties where
  queueFlags : Nat
deriving DecidableEq, Repr

/-- A physical device: an opaque handle together with the queue-family table
the subsystem would report for it via
`vkGetPhysicalDeviceQueueFamilyProperties`.  `VK_NULL_HANDLE` is modelled as
`Option.none` at the use sites. -/
structure VkPhysicalDevice where
  handle : Nat
  queueFamilies : List VkQueueFamilyProperties
deriving DecidableEq, Repr

/-- `QueueFamilyIndices` (main.cpp lines 25-37). -/
structure QueueFamilyIndices where
  graphicsFamily : Option Nat := none
deriving DecidableEq, Repr

/-- `QueueFamilyIndices::isComplete` (main.cpp line 31). -/
def QueueFamilyIndices.isComplete (q : QueueFamilyIndices) : Bool :=
  q.graphicsFamily.isSome

/-- The loop condition of `findQueueFamilies` (main.cpp line 200):
`queueFamily.queueFlags & VK_QUEUE_GRAPHICS_BIT` is truthy. -/
def hasGraphicsBit (qf : VkQueueFamilyProperties) : Bool :=
  (qf.queueFlags &&& VK_QUEUE_GRAPHICS_BIT) != 0

/-- The scanning loop of `findQueueFamilies` (main.cpp lines 197-209):
sets `graphicsFamily := i` on a graphics-capable family, then breaks as
soon as the indices are complete, else advances `i`. -/
def findQueueFamiliesGo :
    List VkQueueFamilyProperties → Nat → QueueFamilyIndices → QueueFamilyIndices
  | [], _, indices => indices
  | qf :: rest, i, indices =>
    let indices1 :=
      if hasGraphicsBit qf then { indices with graphicsFamily := some i } else indices
    if indices1.isComplete then indices1
    else findQueueFamiliesGo rest (i + 1) indices1

/-- `findQueueFamilies` (main.cpp lines 185-211), as a function of the
queue-family table the device reports. -/
def findQueueFamilies (qfs : List VkQueueFamilyProperties) : QueueFamilyIndices :=
  findQueueFamiliesGo qfs 0 {}

/-- A full (non-early-exit) scan: the first index at offset `i` whose flags
include the graphics bit.  Used to state that the early-exit scan of the
source is equivalent to a full scan. -/
def fullScanGraphicsFrom (i : Nat) : List VkQueueFamilyProperties → Option Nat
  | [] => none
  | qf :: rest => if hasGraphicsBit qf then some i else fullScanGraphicsFrom (i + 1) rest

/-- Full scan from index 0. -/
def fullScanGraphics (qfs : List VkQueueFamilyProperties) : Option Nat :=
  fullScanGraphicsFrom 0 qfs

/-- `j` is the lowest queue-family index of `qfs` whose flags include the
graphics bit. -/
def isLowestGraphicsIndex (qfs : List VkQueueFamilyProperties) (j : Nat) : Prop :=
  (∃ qf, qfs[j]? = some qf ∧ hasGraphicsBit qf = true) ∧
  ∀ m, m < j → ∀ qf, qfs[m]? = some qf → hasGraphicsBit qf = false

theorem findQueueFamiliesGo_eq_fullScan (qfs : List VkQueueFamilyProperties) (i : Nat) :
    findQueueFamiliesGo qfs i {} = { graphicsFamily := fullScanGraphicsFrom i qfs } := by
  induction qfs generalizing i with
  | nil => rfl
  | cons qf rest ih =>
    simp only [findQueueFamiliesGo, fullScanGraphicsFrom]
    by_cases h : hasGraphicsBit qf
    · simp [h, QueueFamilyIndices.isComplete]
    · simp [h, QueueFamilyIndices.isComplete, ih]

theorem findQueueFamilies_eq_fullScan (qfs : List VkQueueFamilyProperties) :
    findQueueFamilies qfs = { graphicsFamily := fullScanGraphics qfs } :=
  findQueueFamiliesGo_eq_fullScan qfs 0

theorem fullScanGraphicsFrom_eq_some (qfs : List VkQueueFamilyProperties) :
    ∀ i j, fullScanGraphicsFrom i qfs = some j ↔
      ∃ k, j = i + k ∧ isLowestGraphicsIndex qfs k := by
  induction qfs with
  | nil =>
    intro i j
    simp [fullScanGraphicsFrom, isLowestGraphicsIndex]
  | cons qf rest ih =>
    intro i j
    simp only [fullScanGraphicsFrom]
    by_cases h : hasGraphicsBit qf
    · rw [if_pos h]
      constructor
      · intro hj
        have hij : i = j := by simpa using hj
        refine ⟨0, by omega, ⟨qf, by simp, h⟩, ?_⟩
        intro m hm; omega
      · rintro ⟨k, hk, ⟨qf2, hget, _⟩, hlow⟩
        rcases Nat.eq_zero_or_pos k with hk0 | hkpos
        · subst hk0; simp [hk]
        · exact absurd h (by simpa using hlow 0 hkpos qf (by simp))
    · rw [if_neg h]
      rw [ih (i + 1) j]
      constructor
      · rintro ⟨k, hk, ⟨qf2, hget, hbit⟩, hlow⟩
        refine ⟨k + 1, by omega, ⟨qf2, by simpa using hget, hbit⟩, ?_⟩
        intro m hm qf3 hget3
        match m with
        | 0 =>
          simp only [List.getElem?_cons_zero, Option.some_inj] at hget3
          subst hget3
          simpa using h
        | m + 1 =>
          exact hlow m (by omega) qf3 (by simpa using hget3)
      · rintro ⟨k, hk, ⟨qf2, hget, hbit⟩, hlow⟩
        match k with
        | 0 =>
          simp only [List.getElem?_cons_zero, Option.some_inj] at hget
          subst hget
          exact absurd hbit (by simpa using h)
        | k + 1 =>
          refine ⟨k, by omega, ⟨qf2, by simpa using hget, hbit⟩, ?_⟩
          intro m hm qf3 hget3
          exact hlow (m + 1) (by omega) qf3 (by simpa using hget3)

theorem fullScanGraphicsFrom_eq_none (qfs : List VkQueueFamilyProperties) :
    ∀ i, fullScanGraphicsFrom i qfs = none ↔
      ∀ qf ∈ qfs, hasGraphicsBit qf = false := by
  induction qfs with
  | nil => intro i; simp [fullScanGraphicsFrom]
  | cons qf rest ih =>
    intro i
    simp only [fullScanGraphicsFrom]
    by_cases h : hasGraphicsBit qf
    · simp [h]
    · simp [h, ih (i + 1)]

theorem findQueueFamilies_some_iff (qfs : List VkQueueFamilyProperties) (j : Nat) :
    (findQueueFamilies qfs).graphicsFamily = some j ↔ isLowestGraphicsIndex qfs j := by
  rw [findQueueFamilies_eq_fullScan]
  show fullScanGraphics qfs = some j ↔ _
  rw [fullScanGraphics, fullScanGraphicsFrom_eq_some qfs 0 j]
  constructor
  · rintro ⟨k, hk, hlow⟩
    simpa [hk] using hlow
  · intro hlow
    exact ⟨j, by omega, hlow⟩

theorem findQueueFamilies_none_iff (qfs : List VkQueueFamilyProperties) :
    (findQueueFamilies qfs).graphicsFamily = none ↔
      ∀ qf ∈ qfs, hasGraphicsBit qf = false := by
  rw [findQueueFamilies_eq_fullScan]
  show fullScanGraphics qfs = none ↔ _
  rw [fullScanGraphics, fullScanGraphicsFrom_eq_none qfs 0]

/-- `isDeviceSuitable` (main.cpp lines 177-183). -/
def isDeviceSuitable (d : VkPhysicalDevice) : Bool :=
  (findQueueFamilies d.queueFamilies).isComplete

/-- Errors `pickPhysicalDevice` can raise (main.cpp lines 156, 173). -/
inductive PickError where
  | NoDevicesFound
  | NoSuitableDevice
deriving DecidableEq, Repr

/-- The selection loop of `pickPhysicalDevice` (main.cpp lines 164-169):
`physicalDevice` starts as `VK_NULL_HANDLE` (modelled `none`), is set to the
first suitable candidate, and the loop breaks. -/
def pickLoop : List VkPhysicalDevice → Option VkPhysicalDevice → Option VkPhysicalDevice
  | [], physicalDevice => physicalDevice
  | d :: rest, physicalDevice =>
    if isDeviceSuitable d then some d else pickLoop rest physicalDevice

/-- The selection loop instrumented with the list of candidates on which the
suitability predicate was evaluated, in evaluation order.  Its result
component agrees with `pickLoop` (see `pickLoopTrace_snd`). -/
def pickLoopTrace : List VkPhysicalDevice → List VkPhysicalDevice × Option VkPhysicalDevice
  | [] => ([], none)
  | d :: rest =>
    if isDeviceSuitable d then ([d], some d)
    else
      let r := pickLoopTrace rest
      (d :: r.1, r.2)

/-- `pickPhysicalDevice` (main.cpp lines 147-175), as a function of the device
list the instance enumeration reports. -/
def pickPhysicalDevice (devices : List VkPhysicalDevice) :
    Except PickError VkPhysicalDevice :=
  if devices.length = 0 then .error .NoDevicesFound
  else
    match pickLoop devices none with
    | some d => .ok d
    | none => .error .NoSuitableDevice

theorem pickLoopTrace_snd (devices : List VkPhysicalDevice) :
    (pickLoopTrace devices).2 = pickLoop devices none := by
  induction devices with
  | nil => rfl
  | cons d rest ih =>
    simp only [pickLoopTrace, pickLoop]
    by_cases h : isDeviceSuitable d
    · rw [if_pos h, if_pos h]
    · rw [if_neg h, if_neg h]; exact ih

theorem pickLoop_first (devices : List VkPhysicalDevice) :
    ∀ i d, devices[i]? = some d → isDeviceSuitable d = true →
      (∀ j, j < i → ∀ e, devices[j]? = some e → isDeviceSuitable e = false) →
      pickLoop devices none = some d ∧
        (pickLoopTrace devices).1 = devices.take (i + 1) := by
  induction devices with
  | nil => intro i d hd; simp at hd
  | cons a rest ih =>
    intro i d hd hs hf
    match i with
    | 0 =>
      simp only [List.getElem?_cons_zero, Option.some_inj] at hd
      subst hd
      simp [pickLoop, pickLoopTrace, hs]
    | i + 1 =>
      have ha : isDeviceSuitable a = false := hf 0 (by omega) a (by simp)
      have hrest := ih i d (by simpa using hd) hs
        (fun j hj e he => hf (j + 1) (by omega) e (by simpa using he))
      simp only [pickLoop, pickLoopTrace, ha]
      refine ⟨?_, ?_⟩
      · rw [if_neg (by simp [ha])]
        exact hrest.1
      · rw [if_neg (by simp [ha])]
        simpa using hrest.2

theorem pickLoop_none_iff (devices : List VkPhysicalDevice) :
    pickLoop devices none = none ↔ ∀ d ∈ devices, isDeviceSuitable d = false := by
  induction devices with
  | nil => simp [pickLoop]
  | cons a rest ih =>
    simp only [pickLoop]
    by_cases h : isDeviceSuitable a
    · rw [if_pos h]; simp [h]
    · rw [if_neg h]
      simp only [List.mem_cons]
      constructor
      · intro hrest e he
        rcases he with he | he
        · subst he; simpa using h
        · exact ih.mp hrest e he
      · intro hall
        exact ih.mpr (fun e he => hall e (Or.inr he))

/-- The inner loop of `checkValidationLayerSupport` (main.cpp lines 279-284):
scans the available layers for an exact (`strcmp == 0`) match of `layerName`,
breaking at the first hit. -/
def layerFoundIn (layerName : String) : List String → Bool
  | [] => false
  | p :: rest => if layerName = p then true else layerFoundIn layerName rest

/-- The outer loop of `checkValidationLayerSupport` (main.cpp lines 276-289):
returns false as soon as some requested layer is not found. -/
def checkValidationLayerSupportGo (requested available : List String) : Bool :=
  match requested with
  | [] => true
  | layerName :: rest =>
    if !layerFoundIn layerName available then false
    else checkValidationLayerSupportGo rest available

/-- `checkValidationLayerSupport` (main.cpp lines 266-291), as a function of
the layer list the subsystem enumeration reports; the requested set is the
global `validationLayers`. -/
def checkValidationLayerSupport (available : List String) : Bool :=
  checkValidationLayerSupportGo validationLayers available

theorem layerFoundIn_iff (layerName : String) (available : List String) :
    layerFoundIn layerName available = true ↔ layerName ∈ available := by
  induction available with
  | nil => simp [layerFoundIn]
  | cons p rest ih =>
    simp only [layerFoundIn, List.mem_cons]
    by_cases h : layerName = p
    · rw [if_pos h]; simp [h]
    · rw [if_neg h]; simp [h, ih]

theorem checkValidationLayerSupportGo_iff (requested available : List String) :
    checkValidationLayerSupportGo requested available = true ↔
      ∀ name ∈ requested, name ∈ available := by
  induction requested with
  | nil => simp [checkValidationLayerSupportGo]
  | cons layerName rest ih =>
    simp only [checkValidationLayerSupportGo, List.mem_cons]
    by_cases h : layerFoundIn layerName available
    · rw [if_neg (by simp [h])]
      rw [ih]
      constructor
      · intro hall name hname
        rcases hname with hname | hname
        · rw [hname]; exact (layerFoundIn_iff layerName available).mp h
        · exact hall name hname
      · intro hall name hname
        exact hall name (Or.inr hname)
    · rw [if_pos (by simp [h])]
      constructor
      · intro hfalse; exact absurd hfalse (by simp)
      · intro hall
        exact absurd ((layerFoundIn_iff layerName available).mpr
          (hall layerName (Or.inl rfl))) h

/-- The fields of `VkInstanceCreateInfo` the source assigns
(main.cpp lines 233-256); string-pointer pairs (count, array) are modelled
as a count together with the list of names. -/
structure VkInstanceCreateInfo where
  flags : Nat := 0
  enabledLayerCount : Nat := 0
  ppEnabledLayerNames : List String := []
  enabledExtensionCount : Nat := 0
  ppEnabledExtensionNames : List String := []
deriving DecidableEq, Repr

/-- Subsystem calls `createInstance` can issue, in issue order:
`vkEnumerateInstanceLayerProperties` happens inside
`checkValidationLayerSupport` (so its presence in the trace records that the
check was invoked), `vkCreateInstance` is the one call that can create an
instance handle. -/
inductive ApiCall where
  | enumerateInstanceLayerProperties
  | vkCreateInstance (info : VkInstanceCreateInfo)
deriving DecidableEq, Repr

/-- Errors `createInstance` can raise (main.cpp lines 220, 262). -/
inductive InstanceError where
  | LayerUnavailable
  | InstanceCreationFailed (code : Int)
deriving DecidableEq, Repr

/-- Environment of `createInstance`: the compile-time diagnostics flag, the
layer list the host enumeration reports, the extension list GLFW reports, and
the result code the subsystem returns from `vkCreateInstance`. -/
structure InstanceEnv where
  enableValidationLayers : Bool
  availableLayers : List String
  glfwExtensions : List String
  createInstanceResult : Int
deriving DecidableEq, Repr

/-- `createInstance` (main.cpp lines 213-264): returns the trace of subsystem
calls issued and either the `VkInstanceCreateInfo` with which the instance
was created (standing for the produced handle) or the raised error.

The source first sets the layer fields conditionally (lines 237-243), then
sets the extension fields (lines 253-254), then sets the layer fields a
second time unconditionally (lines 255-256); all three steps are reproduced
here in order. -/
def createInstance (env : InstanceEnv) :
    List ApiCall × Except InstanceError VkInstanceCreateInfo :=
  let checkTrace : List ApiCall :=
    if env.enableValidationLayers then [.enumerateInstanceLayerProperties] else []
  if env.enableValidationLayers && !checkValidationLayerSupport env.availableLayers then
    (checkTrace, .error .LayerUnavailable)
  else
    let info0 : VkInstanceCreateInfo :=
      { flags := VK_INSTANCE_CREATE_ENUMERATE_PORTABILITY_BIT_KHR }
    let info1 :=
      if env.enableValidationLayers then
        { info0 with
          enabledLayerCount := validationLayers.length,
          ppEnabledLayerNames := validationLayers }
      else { info0 with enabledLayerCount := 0 }
    let enabledExtensions := env.glfwExtensions ++ ["VK_KHR_portability_enumeration"]
    let info2 :=
      { info1 with
        enabledExtensionCount := enabledExtensions.length,
        ppEnabledExtensionNames := enabledExtensions }
    let info3 :=
      { info2 with
        enabledLayerCount := validationLayers.length,
        ppEnabledLayerNames := validationLayers }
    let trace := checkTrace ++ [.vkCreateInstance info3]
    if env.createInstanceResult ≠ VK_SUCCESS then
      (trace, .error (.InstanceCreationFailed env.createInstanceResult))
    else
      (trace, .ok info3)

/-- The fields of `VkDeviceQueueCreateInfo` the source assigns
(main.cpp lines 106-111); the priority pointer is modelled as the list of
priorities it points at (one entry, `queuePriority = 1.0f`, modelled as the
exact rational 1). -/
structure VkDeviceQueueCreateInfo where
  queueFamilyIndex : Nat
  queueCount : Nat
  pQueuePriorities : List ℚ
deriving DecidableEq, Repr

/-- The fields of `VkDeviceCreateInfo` the source assigns
(main.cpp lines 122-136). -/
structure VkDeviceCreateInfo where
  queueCreateInfos : List VkDeviceQueueCreateInfo
  queueCreateInfoCount : Nat
  enabledExtensionCount : Nat
  ppEnabledExtensionNames : List String
  enabledLayerCount : Nat
  ppEnabledLayerNames : List String
deriving DecidableEq, Repr

/-- The arguments of the `vkGetDeviceQueue` call (main.cpp line 143). -/
structure GetDeviceQueueCall where
  queueFamilyIndex : Nat
  queueIndex : Nat
deriving DecidableEq, Repr

/-- Errors `createLogicalDevice` can raise: `EmptyGraphicsFamily` models the
`std::bad_optional_access` thrown by `indices.graphicsFamily.value()` on an
empty optional (main.cpp lines 108, 143); `DeviceCreationFailed` is the
explicit throw (main.cpp line 140). -/
inductive DeviceError where
  | EmptyGraphicsFamily
  | DeviceCreationFailed
deriving DecidableEq, Repr

/-- `createLogicalDevice` (main.cpp lines 98-144), as a function of the
diagnostics flag, the selected physical device, and the result code the
subsystem returns from `vkCreateDevice`.  On success it returns the
`VkDeviceCreateInfo` with which the device was created (standing for the
produced handle) and the recorded `vkGetDeviceQueue` call. -/
def createLogicalDevice (enableVL : Bool) (physicalDevice : VkPhysicalDevice)
    (createDeviceResult : Int) :
    Except DeviceError (VkDeviceCreateInfo × GetDeviceQueueCall) :=
  let indices := findQueueFamilies physicalDevice.queueFamilies
  match indices.graphicsFamily with
  | none => .error .EmptyGraphicsFamily
  | some gf =>
    let queueCreateInfo : VkDeviceQueueCreateInfo :=
      { queueFamilyIndex := gf, queueCount := 1, pQueuePriorities := [1] }
    let deviceExtensions : List String :=
      [VK_KHR_SWAPCHAIN_EXTENSION_NAME, "VK_KHR_portability_subset"]
    let createInfo : VkDeviceCreateInfo :=
      { queueCreateInfos := [queueCreateInfo],
        queueCreateInfoCount := 1,
        enabledExtensionCount := deviceExtensions.length,
        ppEnabledExtensionNames := deviceExtensions,
        enabledLayerCount := if enableVL then validationLayers.length else 0,
        ppEnabledLayerNames := if enableVL then validationLayers else [] }
    if createDeviceResult ≠ VK_SUCCESS then .error .DeviceCreationFailed
    else .ok (createInfo, { queueFamilyIndex := gf, queueIndex := 0 })

/-- Lifecycle events: creation and destruction of the three owned resources,
plus the final `glfwTerminate`.  A `Created` event is recorded only when the
corresponding handle actually comes into existence. -/
inductive LifeEvent where
  | windowCreated
  | instanceCreated
  | deviceCreated
  | deviceDestroyed
  | instanceDestroyed
  | windowDestroyed
  | glfwTerminated
deriving DecidableEq, Repr

/-- Any error thrown during `initVulkan`. -/
inductive AppError where
  | instanceErr (e : InstanceError)
  | pickErr (e : PickError)
  | deviceErr (e : DeviceError)
deriving DecidableEq, Repr

/-- Environment of a whole run: the instance environment, the device list the
enumeration reports, and the result code of `vkCreateDevice`. -/
structure AppEnv where
  instanceEnv : InstanceEnv
  devices : List VkPhysicalDevice
  createDeviceResult : Int
deriving DecidableEq, Repr

/-- `HelloTriangleApplication::run` (main.cpp lines 41-46):
`initWindow(); initVulkan(); mainLoop(); cleanup();`.  A thrown exception
propagates out of `run` immediately, skipping every later statement —
including `cleanup` — exactly as a C++ exception does (there is no
try/finally in the source).  Returns the lifecycle event trace and the error
if one was thrown.  `mainLoop` performs no fallible operation and touches no
resource, so it contributes no event; `cleanup` (main.cpp lines 85-96)
destroys device, instance, window in that order and then terminates GLFW. -/
def runApp (env : AppEnv) : List LifeEvent × Option AppError :=
  let t0 := [LifeEvent.windowCreated]
  match (createInstance env.instanceEnv).2 with
  | .error e => (t0, some (.instanceErr e))
  | .ok _ =>
    let t1 := t0 ++ [LifeEvent.instanceCreated]
    match pickPhysicalDevice env.devices with
    | .error e => (t1, some (.pickErr e))
    | .ok d =>
      match createLogicalDevice env.instanceEnv.enableValidationLayers d
          env.createDeviceResult with
      | .error e => (t1, some (.deviceErr e))
      | .ok _ =>
        let t2 := t1 ++ [LifeEvent.deviceCreated]
        (t2 ++ [LifeEvent.deviceDestroyed, LifeEvent.instanceDestroyed,
                LifeEvent.windowDestroyed, LifeEvent.glfwTerminated], none)

/-- `main` (main.cpp lines 295-308): runs the application, catches any
exception, and maps it to `EXIT_FAILURE = 1`; clean shutdown is
`EXIT_SUCCESS = 0`. -/
def mainExitCode (env : AppEnv) : Nat :=
  match (runApp env).2 with
  | none => 0
  | some _ => 1

/-! Concrete fixtures used by witnesses and by the evaluations of the code
at failing inputs. -/

/-- A device whose only queue family is compute-only (flags `0x2`): not
suitable. -/
def devA : VkPhysicalDevice := { handle := 1, queueFamilies := [{ queueFlags := 2 }] }

/-- A device whose queue family 0 is compute-only and whose queue family 1
has the graphics bit (flags `0x5`): suitable, graphics index 1. -/
def devB : VkPhysicalDevice :=
  { handle := 2, queueFamilies := [{ queueFlags := 2 }, { queueFlags := 5 }] }

/-- A run with diagnostics disabled (release build, `NDEBUG`). -/
def envDiagnosticsOff : InstanceEnv :=
  { enableValidationLayers := false, availableLayers := [],
    glfwExtensions := ["VK_KHR_surface"], createInstanceResult := 0 }

/-- A run with diagnostics enabled on a host whose layer enumeration reports
only `Y` and `Z`, so the requested validation layer is absent. -/
def envLayerAbsent : InstanceEnv :=
  { enableValidationLayers := true, availableLayers := ["Y", "Z"],
    glfwExtensions := [], createInstanceResult := 0 }

/-- A run in which window, instance and device selection succeed but
`vkCreateDevice` fails (result code `-4`, device lost). -/
def envDeviceFailure : AppEnv :=
  { instanceEnv := envDiagnosticsOff, devices := [devA, devB],
    createDeviceResult := -4 }

/-- Claim C1: with diagnostics disabled, `checkValidationLayerSupport` is
indeed never invoked (the trace holds no `enumerateInstanceLayerProperties`
call), but — contrary to the claim — the instance-creation request still
carries the diagnostic-layer list: lines 255-256 of main.cpp re-assign
`enabledLayerCount` and `ppEnabledLayerNames` unconditionally after the
conditional block, so the request reaches the subsystem with layer count 1
and the validation-layer name, not with layer count 0. -/
theorem createInstance_disabled_still_sends_layer_list :
    envDiagnosticsOff.enableValidationLayers = false ∧
    (createInstance envDiagnosticsOff).1 =
      [ApiCall.vkCreateInstance
        { flags := 1,
          enabledLayerCount := 1,
          ppEnabledLayerNames := ["VK_LAYER_KHRONOS_validation"],
          enabledExtensionCount := 2,
          ppEnabledExtensionNames := ["VK_KHR_surface", "VK_KHR_portability_enumeration"] }] ∧
    ApiCall.enumerateInstanceLayerProperties ∉ (createInstance envDiagnosticsOff).1 := by
  refine ⟨rfl, rfl, ?_⟩
  decide

/-- Claim C2: when `vkCreateDevice` fails, the exception thrown by
`createLogicalDevice` propagates out of `run` past `cleanup()` to the catch
in `main`, so — contrary to the claim — the already-created instance and
window are NOT released: the lifecycle trace of such a run is exactly
`[windowCreated, instanceCreated]`, with no `instanceDestroyed` and no
`windowDestroyed` event, and the process exits with code 1. -/
theorem run_device_failure_skips_teardown :
    (runApp envDeviceFailure).1 =
      [LifeEvent.windowCreated, LifeEvent.instanceCreated] ∧
    (runApp envDeviceFailure).2 =
      some (.deviceErr .DeviceCreationFailed) ∧
    LifeEvent.instanceDestroyed ∉ (runApp envDeviceFailure).1 ∧
    LifeEvent.windowDestroyed ∉ (runApp envDeviceFailure).1 ∧
    mainExitCode envDeviceFailure = 1 := by
  refine ⟨rfl, rfl, ?_, ?_, rfl⟩ <;> decide

/-- Claim C3: whenever the enumerated device list has a suitable candidate at
position `i` and none before it, `pickPhysicalDevice` returns exactly that
candidate, and the suitability predicate is evaluated only on the candidates
up to and including position `i` (the instrumented loop's evaluation list is
`devices.take (i + 1)`): the selection is first-match and short-circuiting. -/
theorem pickPhysicalDevice_first_match (devices : List VkPhysicalDevice) (i : Nat)
    (d : VkPhysicalDevice) (hd : devices[i]? = some d)
    (hs : isDeviceSuitable d = true)
    (hf : ∀ j, j < i → ∀ e, devices[j]? = some e → isDeviceSuitable e = false) :
    pickPhysicalDevice devices = .ok d ∧
      (pickLoopTrace devices).1 = devices.take (i + 1) := by
  have h := pickLoop_first devices i d hd hs hf
  have hlen : i < devices.length := (List.getElem?_eq_some.mp hd).1
  refine ⟨?_, h.2⟩
  simp only [pickPhysicalDevice]
  rw [if_neg (by omega), h.1]

/-- Witness for C3 on the fixture list `[devA, devB]`: the first suitable
candidate is `devB` at position 1 and both candidates are evaluated. -/
theorem pickPhysicalDevice_first_match_witness :
    pickPhysicalDevice [devA, devB] = .ok devB ∧
      (pickLoopTrace [devA, devB]).1 = List.take (1 + 1) [devA, devB] := by
  refine pickPhysicalDevice_first_match [devA, devB] 1 devB (by decide) (by decide) ?_
  intro j hj e he
  have hj0 : j = 0 := by omega
  subst hj0
  simp only [List.getElem?_cons_zero, Option.some_inj] at he
  rw [← he]
  decide

/-- Claim C4: `findQueueFamilies` computes exactly what a full scan computes,
its `graphicsFamily` is `some j` precisely when `j` is the lowest queue-family
index whose flags include the graphics bit, and it is `none` precisely when no
family in the table has the graphics bit. -/
theorem findQueueFamilies_lowest_graphics_index (qfs : List VkQueueFamilyProperties) :
    findQueueFamilies qfs = { graphicsFamily := fullScanGraphics qfs } ∧
    (∀ j, (findQueueFamilies qfs).graphicsFamily = some j ↔
      isLowestGraphicsIndex qfs j) ∧
    ((findQueueFamilies qfs).graphicsFamily = none ↔
      ∀ qf ∈ qfs, hasGraphicsBit qf = false) :=
  ⟨findQueueFamilies_eq_fullScan qfs,
   fun j => findQueueFamilies_some_iff qfs j,
   findQueueFamilies_none_iff qfs⟩

/-- Claim C5: with diagnostics enabled and some requested diagnostic layer
absent from the host's enumeration, `createInstance` fails with
`LayerUnavailable`, and the only subsystem call issued is the layer
enumeration inside the support check — in particular no `vkCreateInstance`
call is issued, so no instance handle can have been produced. -/
theorem createInstance_layerUnavailable_before_creation (env : InstanceEnv)
    (hVL : env.enableValidationLayers = true)
    (habsent : ∃ name ∈ validationLayers, name ∉ env.availableLayers) :
    (createInstance env).2 = .error .LayerUnavailable ∧
      (createInstance env).1 = [ApiCall.enumerateInstanceLayerProperties] := by
  have hcheck : checkValidationLayerSupport env.availableLayers = false := by
    rcases habsent with ⟨name, hmem, habs⟩
    rcases hb : checkValidationLayerSupport env.availableLayers with _ | _
    · rfl
    · exact absurd ((checkValidationLayerSupportGo_iff validationLayers
        env.availableLayers).mp hb name hmem) habs
  constructor <;> simp [createInstance, hVL, hcheck]

/-- Witness for C5 on the fixture environment whose host reports only the
layers `Y` and `Z`. -/
theorem createInstance_layerUnavailable_witness :
    (createInstance envLayerAbsent).2 = .error .LayerUnavailable ∧
      (createInstance envLayerAbsent).1 = [ApiCall.enumerateInstanceLayerProperties] :=
  createInstance_layerUnavailable_before_creation envLayerAbsent rfl
    ⟨"VK_LAYER_KHRONOS_validation", by decide, by decide⟩

/-- Claim C6: on an empty device enumeration `pickPhysicalDevice` fails with
`NoDevicesFound`, and the suitability predicate is evaluated on no candidate
(the instrumented loop's evaluation list is empty). -/
theorem pickPhysicalDevice_empty_noDevicesFound (devices : List VkPhysicalDevice)
    (h : devices.length = 0) :
    pickPhysicalDevice devices = .error .NoDevicesFound ∧
      (pickLoopTrace devices).1 = [] := by
  have hnil : devices = [] := List.length_eq_zero.mp h
  subst hnil
  exact ⟨rfl, rfl⟩

/-- Witness for C6 on the empty device list. -/
theorem pickPhysicalDevice_empty_witness :
    pickPhysicalDevice ([] : List VkPhysicalDevice) = .error .NoDevicesFound ∧
      (pickLoopTrace ([] : List VkPhysicalDevice)).1 = [] :=
  pickPhysicalDevice_empty_noDevicesFound [] rfl

/-- Claim C7: on a non-empty device enumeration, `pickPhysicalDevice` fails
with `NoSuitableDevice` exactly when every enumerated candidate fails the
suitability predicate. -/
theorem pickPhysicalDevice_noSuitable_iff (devices : List VkPhysicalDevice)
    (h : devices ≠ []) :
    pickPhysicalDevice devices = .error .NoSuitableDevice ↔
      ∀ d ∈ devices, isDeviceSuitable d = false := by
  have hlen : ¬devices.length = 0 := by
    intro h0; exact h (List.length_eq_zero.mp h0)
  simp only [pickPhysicalDevice]
  rw [if_neg hlen]
  cases hp : pickLoop devices none with
  | none =>
    simp only []
    constructor
    · intro _; exact (pickLoop_none_iff devices).mp hp
    · intro _; trivial
  | some d =>
    simp only []
    constructor
    · intro hcontra; exact absurd hcontra (by simp)
    · intro hall
      rw [(pickLoop_none_iff devices).mpr hall] at hp
      exact absurd hp (by simp)

/-- Witness for C7: the singleton list holding only the unsuitable fixture
device `devA` makes `pickPhysicalDevice` fail with `NoSuitableDevice`. -/
theorem pickPhysicalDevice_noSuitable_witness :
    pickPhysicalDevice [devA] = .error .NoSuitableDevice :=
  (pickPhysicalDevice_noSuitable_iff [devA] (by decide)).mpr (by decide)

/-- Claim C8: `checkValidationLayerSupport` returns true exactly when every
name in the requested diagnostic-layer set `validationLayers` appears (by
exact string equality, i.e. `strcmp == 0`) in the host's enumerated
available-layer list. -/
theorem checkValidationLayerSupport_iff_all_present (available : List String) :
    checkValidationLayerSupport available = true ↔
      ∀ name ∈ validationLayers, name ∈ available :=
  checkValidationLayerSupportGo_iff validationLayers available

/-- Claim C9: when the selected device's recomputed indices resolve the
graphics family to `gf` and the subsystem accepts the request,
`createLogicalDevice` issues exactly one queue-creation request — for family
`gf`, one queue, the single priority 1.0 — and records exactly one
`vkGetDeviceQueue` retrieval, at family `gf` and submission index 0. -/
theorem createLogicalDevice_single_queue_request (enableVL : Bool)
    (d : VkPhysicalDevice) (res : Int) (gf : Nat)
    (hgf : (findQueueFamilies d.queueFamilies).graphicsFamily = some gf)
    (hres : res = VK_SUCCESS) :
    createLogicalDevice enableVL d res =
      .ok ({ queueCreateInfos :=
               [{ queueFamilyIndex := gf, queueCount := 1, pQueuePriorities := [1] }],
             queueCreateInfoCount := 1,
             enabledExtensionCount := 2,
             ppEnabledExtensionNames :=
               [VK_KHR_SWAPCHAIN_EXTENSION_NAME, "VK_KHR_portability_subset"],
             enabledLayerCount := if enableVL then validationLayers.length else 0,
             ppEnabledLayerNames := if enableVL then validationLayers else [] },
           { queueFamilyIndex := gf, queueIndex := 0 }) := by
  subst hres
  simp [createLogicalDevice, hgf]

/-- Witness for C9 on the fixture device `devB`, whose graphics family is 1,
with diagnostics disabled and a subsystem that accepts the request. -/
theorem createLogicalDevice_single_queue_witness :
    createLogicalDevice false devB VK_SUCCESS =
      .ok ({ queueCreateInfos :=
               [{ queueFamilyIndex := 1, queueCount := 1, pQueuePriorities := [1] }],
             queueCreateInfoCount := 1,
             enabledExtensionCount := 2,
             ppEnabledExtensionNames :=
               [VK_KHR_SWAPCHAIN_EXTENSION_NAME, "VK_KHR_portability_subset"],
             enabledLayerCount := if false then validationLayers.length else 0,
             ppEnabledLayerNames := if false then validationLayers else [] },
           { queueFamilyIndex := 1, queueIndex := 0 }) :=
  createLogicalDevice_single_queue_request false devB VK_SUCCESS 1 (by decide) rfl

/-- Claim C10: when the selected device satisfied the suitability predicate,
the recomputed `QueueFamilyIndices` inside `createLogicalDevice` is complete,
so both `indices.graphicsFamily.value()` accesses succeed: for every result
code of `vkCreateDevice`, the empty-optional error branch
(`EmptyGraphicsFamily`, the model of `std::bad_optional_access`) is never
taken. -/
theorem createLogicalDevice_graphicsFamily_access_safe (enableVL : Bool)
    (d : VkPhysicalDevice) (res : Int)
    (hsuit : isDeviceSuitable d = true) :
    (findQueueFamilies d.queueFamilies).isComplete = true ∧
      createLogicalDevice enableVL d res ≠ .error .EmptyGraphicsFamily := by
  have hc : (findQueueFamilies d.queueFamilies).isComplete = true := hsuit
  refine ⟨hc, ?_⟩
  rcases hg : (findQueueFamilies d.queueFamilies).graphicsFamily with _ | gf
  · rw [QueueFamilyIndices.isComplete, hg] at hc
    simp at hc
  · simp only [createLogicalDevice, hg]
    by_cases hres : res ≠ VK_SUCCESS
    · rw [if_pos hres]
      intro hcontra
      simp at hcontra
    · rw [if_neg hres]
      intro hcontra
      simp at hcontra

/-- Witness for C10 on the fixture device `devB` (suitable), with diagnostics
disabled and a failing `vkCreateDevice` result code `-4`: even then the
empty-optional branch is not the outcome. -/
theorem createLogicalDevice_access_safe_witness :
    (findQueueFamilies devB.queueFamilies).isComplete = true ∧
      createLogicalDevice false devB (-4) ≠ .error .EmptyGraphicsFamily :=
  createLogicalDevice_graphicsFamily_access_safe false devB (-4) (by decide)

end VulkanTut
